import Mathlib

/-
Verification of the version-consistency validator of the coursedocs
cookiecutter template (hooks/pre_gen_project.py).

The hook is a Python script rendered by the template engine.  After
rendering, it holds four configuration values and runs, in order:
a gate on has_versions, a well-formedness check of the version codes in
versions_csv, a cross-reference check of versions_with_solutions, and a
cross-reference check of version_randomization_groups.  On the first
failing check it prints a two-line diagnostic and exits with status 1;
otherwise it exits with status 0 and prints nothing.

The embedding below models each Python string operation over List Char
so that every definition reduces in the kernel.  Only ASCII whitespace
is modelled for str.strip (the configuration fields are ASCII).
-/

namespace CourseDocs

/-- Result of one run of the hook: success means exit status 0 and no
output; failure carries the two printed diagnostic lines and means exit
status 1. -/
inductive ValidationResult : Type where
  | success : ValidationResult
  | failure : String → String → ValidationResult
deriving DecidableEq

/-- Exit status of the process: sys.exit(1) on any failure path, falling
off the end of the script otherwise. -/
def exit_status : ValidationResult → Nat
  | ValidationResult.success => 0
  | ValidationResult.failure _ _ => 1

/-- Text printed to standard output: each of the two print calls appends
a newline; nothing is printed on success. -/
def diagnostic : ValidationResult → String
  | ValidationResult.success => ""
  | ValidationResult.failure l1 l2 => l1 ++ "\n" ++ l2 ++ "\n"

/-- ASCII whitespace as recognised by Python str.strip and str.isspace
(space, tab, newline, carriage return, vertical tab, form feed). -/
def isPySpace (c : Char) : Bool :=
  c == ' ' || c == '\t' || c == '\n' || c == '\r' || c == '\x0b' || c == '\x0c'

/-- Model of Python str.strip(): remove leading and trailing whitespace. -/
def pyStrip (s : String) : String :=
  String.mk (((s.data.dropWhile isPySpace).reverse.dropWhile isPySpace).reverse)

/-- Model of Python str.split(sep) for a one-character separator: cut the
character list at every occurrence of the separator, keeping empty
pieces, so that splitting the empty string yields one empty piece. -/
def splitChar (sep : Char) : List Char → List (List Char)
  | [] => [[]]
  | c :: rest =>
    if c == sep then [] :: splitChar sep rest
    else
      match splitChar sep rest with
      | [] => [[c]]
      | g :: gs => (c :: g) :: gs

/-- Model of Python s.split(sep) on strings, one-character separator. -/
def pySplit (s : String) (sep : Char) : List String :=
  (splitChar sep s.data).map String.mk

/-- Model of Python ", ".join(xs). -/
def joinComma : List String → String
  | [] => ""
  | [x] => x
  | x :: y :: xs => x ++ ", " ++ joinComma (y :: xs)

/-- is_valid_version from hooks/pre_gen_project.py.  The source returns
bool(re.match(r"^[a-zA-Z0-9]+$", x)) after rejecting the empty string.
In Python regular expressions the anchor $ matches at the end of the
string and also just before one newline that ends the string, so the
pattern matches exactly the strings made of one or more ASCII
alphanumeric characters, optionally followed by a single final newline. -/
def is_valid_version (x : String) : Bool :=
  if x.data.isEmpty then false
  else
    let core := if x.data.getLast? == some '\n' then x.data.dropLast else x.data
    !core.isEmpty && core.all Char.isAlphanum

/-- versions = [v.strip() for v in versions_csv.split(",")]. -/
def parseVersions (versions_csv : String) : List String :=
  (pySplit versions_csv ',').map pyStrip

/-- invalid_versions = [v for v in versions if not is_valid_version(v)]. -/
def invalid_versions (versions_csv : String) : List String :=
  (parseVersions versions_csv).filter (fun v => !is_valid_version v)

/-- Shared parse shape [v.strip() for v in s.split(",") if v.strip()]:
split on comma, strip each piece, drop pieces that strip to nothing. -/
def splitCommaDropEmpty (s : String) : List String :=
  ((pySplit s ',').map pyStrip).filter (fun v => v != "")

/-- Parse of one randomization group [v.strip() for v in g.split(";") if v.strip()]. -/
def splitSemiDropEmpty (g : String) : List String :=
  ((pySplit g ';').map pyStrip).filter (fun v => v != "")

/-- missing = [v for v in toks if v not in versions]. -/
def missingFrom (versions toks : List String) : List String :=
  toks.filter (fun v => !versions.contains v)

/-- First printed line of the invalid-version-codes failure. -/
def invalidCodesLine1 (invalid : List String) : String :=
  "Error: The following version codes are invalid: " ++ joinComma invalid

/-- Second printed line of the invalid-version-codes failure. -/
def invalidCodesLine2 : String :=
  "Version codes must be alphanumeric (letters and/or digits only)."

/-- First printed line of the versions_with_solutions cross-reference failure. -/
def vwsLine1 (missing : List String) : String :=
  "Error: The following versions listed in \x27versions_with_solutions\x27 are not present in \x27versions_csv\x27: "
    ++ joinComma missing

/-- Second printed line of the versions_with_solutions cross-reference failure. -/
def vwsLine2 : String :=
  "Please ensure all versions_with_solutions entries appear in versions_csv."

/-- First printed line of the version_randomization_groups cross-reference failure. -/
def vrgLine1 (missing : List String) : String :=
  "Error: The following versions listed in \x27version_randomization_groups\x27 are not present in \x27versions_csv\x27: "
    ++ joinComma missing

/-- Second printed line of the version_randomization_groups cross-reference failure. -/
def vrgLine2 : String :=
  "Please ensure all version_randomization_groups entries appear in versions_csv."

/-- Loop body over the group strings of version_randomization_groups:
for the first group with a token missing from versions, print the
missing tokens of that group and exit 1; after the loop, success. -/
def checkGroups (versions : List String) : List String → ValidationResult
  | [] => ValidationResult.success
  | g :: rest =>
    let vs := splitSemiDropEmpty g
    let missing := missingFrom versions vs
    if missing.isEmpty then checkGroups versions rest
    else ValidationResult.failure (vrgLine1 missing) vrgLine2

/-- Guarded version_randomization_groups check.  The rendered hook sets
the variable to None when the configuration key is absent, so the Python
truthiness test `if version_randomization_groups:` skips the check for
None and for the empty string. -/
def checkVrg (versions : List String) : Option String → ValidationResult
  | none => ValidationResult.success
  | some s =>
    if s == "" then ValidationResult.success
    else checkGroups versions (splitCommaDropEmpty s)

/-- Guarded versions_with_solutions check followed by the group check:
the truthiness test `if versions_with_solutions:` skips the check for
the empty string. -/
def checkVws (versions : List String) (versions_with_solutions : String)
    (vrg : Option String) : ValidationResult :=
  if versions_with_solutions == "" then checkVrg versions vrg
  else
    let missing := missingFrom versions (splitCommaDropEmpty versions_with_solutions)
    if missing.isEmpty then checkVrg versions vrg
    else ValidationResult.failure (vwsLine1 missing) vwsLine2

/-- Whole main block of the rendered hook, as a function of the four
configuration values.  The source computes versions once and reuses it;
here parseVersions is recomputed by invalid_versions with the same value. -/
def validate (has_versions : Bool) (versions_csv : String) (versions_with_solutions : String)
    (version_randomization_groups : Option String) : ValidationResult :=
  if has_versions then
    if !(invalid_versions versions_csv).isEmpty then
      ValidationResult.failure (invalidCodesLine1 (invalid_versions versions_csv)) invalidCodesLine2
    else
      checkVws (parseVersions versions_csv) versions_with_solutions version_randomization_groups
  else ValidationResult.success

/-- Occurrence claim on a diagnostic: msg contains s1 and, somewhere
after that occurrence, s2. -/
def containsThen (msg s1 s2 : String) : Prop :=
  ∃ a b c : String, msg = a ++ s1 ++ b ++ s2 ++ c

/-- Helper: a stripped string never ends in a whitespace character. -/
lemma pyStrip_getLast_not_space (s : String) (c : Char)
    (h : (pyStrip s).data.getLast? = some c) : isPySpace c = false := by
  have h2 : ((s.data.dropWhile isPySpace).reverse.dropWhile isPySpace).head? = some c := by
    simpa [pyStrip] using h
  have h3 := List.head?_dropWhile_not isPySpace (s.data.dropWhile isPySpace).reverse
  rw [h2] at h3
  exact h3

/-- Helper: on a stripped string the trailing-newline branch of
is_valid_version is dead, so validity is exactly non-empty and
all-alphanumeric. -/
lemma is_valid_version_pyStrip (s : String) :
    is_valid_version (pyStrip s) =
      (!(pyStrip s).data.isEmpty && (pyStrip s).data.all Char.isAlphanum) := by
  unfold is_valid_version
  by_cases h : (pyStrip s).data.isEmpty
  · simp [h]
  · cases hlast : (pyStrip s).data.getLast? with
    | none =>
      rw [List.getLast?_eq_none_iff] at hlast
      rw [hlast] at h
      simp at h
    | some c =>
      have hc := pyStrip_getLast_not_space s c hlast
      have hcn : c ≠ '\n' := by
        intro hceq
        rw [hceq] at hc
        simp [isPySpace] at hc
      have hbeq : ((pyStrip s).data.getLast? == some '\n') = false := by
        rw [hlast]
        simp [hcn]
      have h4 : (pyStrip s).data.isEmpty = false := by
        revert h
        cases (pyStrip s).data.isEmpty <;> simp
      simp [hbeq, hcn, h4]

/-- Helper: every element of parseVersions is a stripped token. -/
lemma mem_parseVersions_strip {csv v : String} (hv : v ∈ parseVersions csv) :
    ∃ u, v = pyStrip u := by
  unfold parseVersions at hv
  obtain ⟨u, _, rfl⟩ := List.mem_map.1 hv
  exact ⟨u, rfl⟩

/-- Helper: on tokens of parseVersions, is_valid_version agrees with the
non-empty all-alphanumeric condition. -/
lemma is_valid_version_of_mem {csv v : String} (hv : v ∈ parseVersions csv) :
    is_valid_version v = (!v.data.isEmpty && v.data.all Char.isAlphanum) := by
  obtain ⟨u, rfl⟩ := mem_parseVersions_strip hv
  exact is_valid_version_pyStrip u

/-- Helper: the invalid-token list is the list of tokens that are not
non-empty all-alphanumeric strings. -/
lemma invalid_versions_eq_filter (csv : String) :
    invalid_versions csv =
      (parseVersions csv).filter
        (fun v => !(!v.data.isEmpty && v.data.all Char.isAlphanum)) := by
  unfold invalid_versions
  exact List.filter_congr (fun v hv => by rw [is_valid_version_of_mem hv])

/-- Helper: the invalid-token list is empty exactly when every token is a
non-empty all-alphanumeric string. -/
lemma invalid_versions_eq_nil_iff (csv : String) :
    invalid_versions csv = [] ↔
      ∀ v ∈ parseVersions csv, v ≠ "" ∧ v.data.all Char.isAlphanum = true := by
  rw [invalid_versions_eq_filter, List.filter_eq_nil_iff]
  apply forall_congr'
  intro v
  apply imp_congr_right
  intro _
  constructor
  · intro h2
    have h3 : (!v.data.isEmpty && v.data.all Char.isAlphanum) = true := by
      cases hx : (!v.data.isEmpty && v.data.all Char.isAlphanum)
      · exact absurd (by simp [hx] : (!(!v.data.isEmpty && v.data.all Char.isAlphanum)) = true) h2
      · rfl
    rw [Bool.and_eq_true] at h3
    refine ⟨?_, h3.2⟩
    intro hveq
    rw [hveq] at h3
    simp at h3
  · intro h
    have hne : v.data.isEmpty = false := by
      rw [List.isEmpty_eq_false]
      intro hd
      exact h.1 (String.ext hd)
    simp [hne, h.2]

/-- Helper: with a clean version list, validate runs the cross-reference
checks. -/
lemma validate_of_invalid_nil {csv : String} (h : invalid_versions csv = [])
    (vws : String) (vrgOpt : Option String) :
    validate true csv vws vrgOpt = checkVws (parseVersions csv) vws vrgOpt := by
  simp [validate, h]

/-- Helper: the missing-token list is empty exactly when every token is
declared. -/
lemma missingFrom_eq_nil_iff (versions toks : List String) :
    missingFrom versions toks = [] ↔ ∀ v ∈ toks, v ∈ versions := by
  unfold missingFrom
  rw [List.filter_eq_nil_iff]
  simp

/-- Helper: any failure of the group loop prints the group diagnostic
with a non-empty missing list. -/
lemma checkGroups_failure_shape (versions : List String) :
    ∀ (groups : List String) (l1 l2 : String),
      checkGroups versions groups = ValidationResult.failure l1 l2 →
      ∃ m, m ≠ [] ∧ l1 = vrgLine1 m ∧ l2 = vrgLine2 := by
  intro groups
  induction groups with
  | nil =>
    intro l1 l2 h
    simp [checkGroups] at h
  | cons g rest ih =>
    intro l1 l2 h
    simp only [checkGroups] at h
    by_cases hm : (missingFrom versions (splitSemiDropEmpty g)).isEmpty
    · rw [if_pos hm] at h
      exact ih l1 l2 h
    · rw [if_neg hm] at h
      cases h
      refine ⟨missingFrom versions (splitSemiDropEmpty g), ?_, rfl, rfl⟩
      intro hnil
      exact hm (by simp [hnil])

/-- Helper: any failure of the guarded group check prints the group
diagnostic. -/
lemma checkVrg_failure_shape (versions : List String) (vrgOpt : Option String)
    (l1 l2 : String) (h : checkVrg versions vrgOpt = ValidationResult.failure l1 l2) :
    ∃ m, m ≠ [] ∧ l1 = vrgLine1 m ∧ l2 = vrgLine2 := by
  cases vrgOpt with
  | none => simp [checkVrg] at h
  | some s =>
    simp only [checkVrg] at h
    by_cases hs : (s == "")
    · rw [if_pos hs] at h
      cases h
    · rw [if_neg hs] at h
      exact checkGroups_failure_shape versions (splitCommaDropEmpty s) l1 l2 h

/-- Helper: any failure of the solution-subset check and what follows
prints one of the two cross-reference diagnostics. -/
lemma checkVws_failure_shape (versions : List String) (vws : String)
    (vrgOpt : Option String) (l1 l2 : String)
    (h : checkVws versions vws vrgOpt = ValidationResult.failure l1 l2) :
    (missingFrom versions (splitCommaDropEmpty vws) ≠ [] ∧
      l1 = vwsLine1 (missingFrom versions (splitCommaDropEmpty vws)) ∧ l2 = vwsLine2) ∨
    (∃ m, m ≠ [] ∧ l1 = vrgLine1 m ∧ l2 = vrgLine2) := by
  simp only [checkVws] at h
  by_cases hs : (vws == "")
  · rw [if_pos hs] at h
    exact Or.inr (checkVrg_failure_shape versions vrgOpt l1 l2 h)
  · rw [if_neg hs] at h
    by_cases hm : (missingFrom versions (splitCommaDropEmpty vws)).isEmpty
    · rw [if_pos hm] at h
      exact Or.inr (checkVrg_failure_shape versions vrgOpt l1 l2 h)
    · rw [if_neg hm] at h
      cases h
      refine Or.inl ⟨?_, rfl, rfl⟩
      intro hnil
      exact hm (by simp [hnil])

/-- Helper: when no group has a missing token, the loop succeeds. -/
lemma checkGroups_of_find_none (versions : List String) :
    ∀ groups : List String,
      groups.find? (fun g => !(missingFrom versions (splitSemiDropEmpty g)).isEmpty) = none →
      checkGroups versions groups = ValidationResult.success := by
  intro groups
  induction groups with
  | nil => intro _; rfl
  | cons g rest ih =>
    intro h
    cases hp : (!(missingFrom versions (splitSemiDropEmpty g)).isEmpty) with
    | true =>
      rw [List.find?_cons, hp] at h
      cases h
    | false =>
      rw [List.find?_cons, hp] at h
      have hEmpty : (missingFrom versions (splitSemiDropEmpty g)).isEmpty = true := by
        simpa using hp
      simp only [checkGroups]
      rw [if_pos hEmpty]
      exact ih h

/-- Helper: the loop fails exactly at the first group with a missing
token, printing the missing tokens of that group. -/
lemma checkGroups_of_find_some (versions : List String) :
    ∀ (groups : List String) (g : String),
      groups.find? (fun g2 => !(missingFrom versions (splitSemiDropEmpty g2)).isEmpty) = some g →
      checkGroups versions groups =
        ValidationResult.failure (vrgLine1 (missingFrom versions (splitSemiDropEmpty g)))
          vrgLine2 := by
  intro groups
  induction groups with
  | nil =>
    intro g h
    simp [List.find?] at h
  | cons a rest ih =>
    intro g h
    cases hp : (!(missingFrom versions (splitSemiDropEmpty a)).isEmpty) with
    | true =>
      rw [List.find?_cons, hp] at h
      have hag : a = g := by
        cases h
        rfl
      subst hag
      have hne : (missingFrom versions (splitSemiDropEmpty a)).isEmpty = false := by
        simpa using hp
      simp only [checkGroups]
      rw [if_neg (by simp [hne])]
    | false =>
      rw [List.find?_cons, hp] at h
      have hEmpty : (missingFrom versions (splitSemiDropEmpty a)).isEmpty = true := by
        simpa using hp
      simp only [checkGroups]
      rw [if_pos hEmpty]
      exact ih g h

/-- Helper: the two printed lines of the solution-subset failure contain
the phrase not present in and, later (in the remediation line), the
field name versions_with_solutions. -/
lemma containsThen_vws (m : List String) :
    containsThen (vwsLine1 m ++ "\n" ++ vwsLine2 ++ "\n")
      "not present in" "versions_with_solutions" := by
  refine ⟨"Error: The following versions listed in \x27versions_with_solutions\x27 are ",
    " \x27versions_csv\x27: " ++ joinComma m ++ "\nPlease ensure all ",
    " entries appear in versions_csv.\n", ?_⟩
  have hP : ("Error: The following versions listed in \x27versions_with_solutions\x27 are not present in \x27versions_csv\x27: " : String)
      = "Error: The following versions listed in \x27versions_with_solutions\x27 are "
        ++ ("not present in" ++ " \x27versions_csv\x27: ") := by decide
  have hT : ("\n" : String)
        ++ ("Please ensure all versions_with_solutions entries appear in versions_csv." ++ "\n")
      = "\nPlease ensure all "
        ++ ("versions_with_solutions" ++ " entries appear in versions_csv.\n") := by decide
  unfold vwsLine1 vwsLine2
  rw [hP]
  simp only [String.append_assoc]
  rw [hT]

/-- Helper: the two printed lines of the randomization-group failure
contain the phrase not present in and, later (in the remediation line),
the field name version_randomization_groups. -/
lemma containsThen_vrg (m : List String) :
    containsThen (vrgLine1 m ++ "\n" ++ vrgLine2 ++ "\n")
      "not present in" "version_randomization_groups" := by
  refine ⟨"Error: The following versions listed in \x27version_randomization_groups\x27 are ",
    " \x27versions_csv\x27: " ++ joinComma m ++ "\nPlease ensure all ",
    " entries appear in versions_csv.\n", ?_⟩
  have hP : ("Error: The following versions listed in \x27version_randomization_groups\x27 are not present in \x27versions_csv\x27: " : String)
      = "Error: The following versions listed in \x27version_randomization_groups\x27 are "
        ++ ("not present in" ++ " \x27versions_csv\x27: ") := by decide
  have hT : ("\n" : String)
        ++ ("Please ensure all version_randomization_groups entries appear in versions_csv." ++ "\n")
      = "\nPlease ensure all "
        ++ ("version_randomization_groups" ++ " entries appear in versions_csv.\n") := by decide
  unfold vrgLine1 vrgLine2
  rw [hP]
  simp only [String.append_assoc]
  rw [hT]

/-- C1: for every input with has_versions true on which validation fails
because a token referenced in versions_with_solutions or
version_randomization_groups is absent from the versions_csv token list
(that is, every failure past a clean version-code check), the printed
diagnostic contains the literal substring not present in followed, later
in the output, by the name of the offending field — versions_with_solutions
when the solution-subset check failed (second line vwsLine2),
version_randomization_groups when the group check failed (second line
vrgLine2) — and the exit status is non-zero. -/
theorem C1_cross_reference_diagnostic (csv vws : String) (vrgOpt : Option String)
    (l1 l2 : String) (hinv : invalid_versions csv = [])
    (hfail : validate true csv vws vrgOpt = ValidationResult.failure l1 l2) :
    exit_status (validate true csv vws vrgOpt) ≠ 0 ∧
    ((l2 = vwsLine2 ∧
        containsThen (diagnostic (validate true csv vws vrgOpt))
          "not present in" "versions_with_solutions") ∨
      (l2 = vrgLine2 ∧
        containsThen (diagnostic (validate true csv vws vrgOpt))
          "not present in" "version_randomization_groups")) := by
  rw [validate_of_invalid_nil hinv] at hfail
  rw [validate_of_invalid_nil hinv, hfail]
  refine ⟨by simp [exit_status], ?_⟩
  rcases checkVws_failure_shape _ _ _ _ _ hfail with ⟨_, h1, h2⟩ | ⟨m, _, h1, h2⟩
  · left
    refine ⟨h2, ?_⟩
    rw [h1, h2]
    simpa [diagnostic] using containsThen_vws (missingFrom (parseVersions csv) (splitCommaDropEmpty vws))
  · right
    refine ⟨h2, ?_⟩
    rw [h1, h2]
    simpa [diagnostic] using containsThen_vrg m

/-- Witness for C1 at the concrete input csv=A, vws=C, groups absent. -/
theorem C1_witness :
    invalid_versions "A" = [] ∧
    validate true "A" "C" none = ValidationResult.failure (vwsLine1 ["C"]) vwsLine2 ∧
    (exit_status (validate true "A" "C" none) ≠ 0 ∧
      ((vwsLine2 = vwsLine2 ∧
          containsThen (diagnostic (validate true "A" "C" none))
            "not present in" "versions_with_solutions") ∨
        (vwsLine2 = vrgLine2 ∧
          containsThen (diagnostic (validate true "A" "C" none))
            "not present in" "version_randomization_groups"))) :=
  ⟨by decide, by decide,
    C1_cross_reference_diagnostic "A" "C" none (vwsLine1 ["C"]) vwsLine2 (by decide) (by decide)⟩

/-- C2: with has_versions false, validation succeeds (exit status 0) for
every value of the three string fields, malformed or not; none of the
checks can fail since the whole body is skipped. -/
theorem C2_no_versions_skips_validation (versions_csv versions_with_solutions : String)
    (version_randomization_groups : Option String) :
    validate false versions_csv versions_with_solutions version_randomization_groups =
      ValidationResult.success ∧
    exit_status
        (validate false versions_csv versions_with_solutions version_randomization_groups) = 0 ∧
    diagnostic
        (validate false versions_csv versions_with_solutions version_randomization_groups) = "" :=
  ⟨rfl, rfl, rfl⟩

/-- C3: with has_versions true, if some trimmed versions_csv token is not
a non-empty alphanumeric string then validation fails, printing the
complete list of all invalid tokens together with the fixed rule line,
exits non-zero, and the outcome is independent of the other two fields
(neither cross-reference check is performed). -/
theorem C3_invalid_codes_reported (csv vws : String) (vrgOpt : Option String)
    (h : ∃ v ∈ parseVersions csv, ¬(v ≠ "" ∧ v.data.all Char.isAlphanum = true)) :
    validate true csv vws vrgOpt =
      ValidationResult.failure
        (invalidCodesLine1 ((parseVersions csv).filter
          (fun v => !(!v.data.isEmpty && v.data.all Char.isAlphanum))))
        invalidCodesLine2 ∧
    exit_status (validate true csv vws vrgOpt) ≠ 0 ∧
    ∀ (vws2 : String) (vrgOpt2 : Option String),
      validate true csv vws2 vrgOpt2 = validate true csv vws vrgOpt := by
  have hne : invalid_versions csv ≠ [] := by
    intro hnil
    obtain ⟨v, hv, hbad⟩ := h
    exact hbad ((invalid_versions_eq_nil_iff csv).1 hnil v hv)
  have hb : (invalid_versions csv).isEmpty = false := by
    simpa [List.isEmpty_eq_false] using hne
  refine ⟨?_, ?_, ?_⟩
  · rw [show validate true csv vws vrgOpt =
        ValidationResult.failure (invalidCodesLine1 (invalid_versions csv)) invalidCodesLine2 by
      simp [validate, hb]]
    rw [invalid_versions_eq_filter]
  · simp [validate, hb, exit_status]
  · intro vws2 vrgOpt2
    simp [validate, hb]

/-- Witness for C3 at the concrete input csv=A,? which contains the
invalid token ?. -/
theorem C3_witness :
    (∃ v ∈ parseVersions "A,?", ¬(v ≠ "" ∧ v.data.all Char.isAlphanum = true)) ∧
    validate true "A,?" "A" (some "B") =
      ValidationResult.failure (invalidCodesLine1 ["?"]) invalidCodesLine2 := by
  have h : ∃ v ∈ parseVersions "A,?", ¬(v ≠ "" ∧ v.data.all Char.isAlphanum = true) :=
    ⟨"?", by decide, by decide⟩
  refine ⟨h, ?_⟩
  exact ((C3_invalid_codes_reported "A,?" "A" (some "B") h).1).trans (by decide)

/-- C4 (divergence witness): is_valid_version accepts the string made of
the letter A followed by a newline, even though that string contains a
whitespace character, because the Python anchor $ in re.match also
matches just before one newline that ends the string.  The claim (and
the docstring of the source function, which announces alphanumeric-only
codes) requires rejection of every string containing whitespace. -/
theorem C4_trailing_newline_accepted :
    is_valid_version "A\n" = true ∧
    ('\n' ∈ ("A\n" : String).data ∧ Char.isWhitespace '\n' = true) ∧
    is_valid_version "v1" = true ∧ is_valid_version "" = false ∧
    is_valid_version "v1,v2" = false ∧ is_valid_version "v1;v2" = false ∧
    is_valid_version "a b" = false ∧ is_valid_version "*" = false ∧
    is_valid_version "!" = false ∧ is_valid_version "/" = false ∧
    is_valid_version "|" = false ∧ is_valid_version "&" = false ∧
    is_valid_version "_" = false ∧ is_valid_version "$" = false ∧
    is_valid_version "^" = false := by
  decide

/-- C5: with has_versions true, a clean versions_csv and a
versions_with_solutions that is non-empty after trimming, validation
fails with the solution-subset diagnostic — whose first line lists every
offending token and whose second line is the remediation hint — exactly
when some token of the parsed versions_with_solutions list (split on
comma, trimmed, empties dropped) is not a declared version. -/
theorem C5_solution_subset_check (csv vws : String) (vrgOpt : Option String)
    (hinv : invalid_versions csv = []) (hne : pyStrip vws ≠ "") :
    (validate true csv vws vrgOpt =
        ValidationResult.failure
          (vwsLine1 (missingFrom (parseVersions csv) (splitCommaDropEmpty vws)))
          vwsLine2
      ↔ ∃ v ∈ splitCommaDropEmpty vws, v ∉ parseVersions csv) := by
  have hvne : vws ≠ "" := by
    intro hveq
    rw [hveq] at hne
    exact hne rfl
  have hb : (vws == "") = false := by
    simpa using hvne
  rw [validate_of_invalid_nil hinv]
  simp only [checkVws, hb, Bool.false_eq_true, if_false]
  by_cases hm : (missingFrom (parseVersions csv) (splitCommaDropEmpty vws)).isEmpty
  · rw [if_pos hm]
    have hm2 : missingFrom (parseVersions csv) (splitCommaDropEmpty vws) = [] := by
      simpa [List.isEmpty_iff] using hm
    constructor
    · intro hcv
      obtain ⟨m2, _, _, h2⟩ := checkVrg_failure_shape _ _ _ _ hcv
      exact absurd h2 (by decide : vwsLine2 ≠ vrgLine2)
    · intro ⟨v, hvmem, hnotin⟩
      exact absurd ((missingFrom_eq_nil_iff _ _).1 hm2 v hvmem) hnotin
  · rw [if_neg hm]
    have hm2 : missingFrom (parseVersions csv) (splitCommaDropEmpty vws) ≠ [] := by
      simpa [List.isEmpty_iff] using hm
    constructor
    · intro _
      have h3 : ¬ ∀ v ∈ splitCommaDropEmpty vws, v ∈ parseVersions csv := by
        intro hall
        exact hm2 ((missingFrom_eq_nil_iff _ _).2 hall)
      push_neg at h3
      exact h3
    · intro _
      rfl

/-- Witness for C5: csv=A,B with vws=C fails naming C; csv=A,B,C with
vws=A,B succeeds. -/
theorem C5_witness :
    invalid_versions "A,B" = [] ∧ pyStrip "C" ≠ "" ∧
    validate true "A,B" "C" (some "") =
      ValidationResult.failure (vwsLine1 ["C"]) vwsLine2 ∧
    validate true "A,B,C" "A,B" (some "") = ValidationResult.success := by
  refine ⟨by decide, by decide, ?_, by decide⟩
  have h := (C5_solution_subset_check "A,B" "C" (some "") (by decide) (by decide)).2
    ⟨"C", by decide, by decide⟩
  exact h.trans (by decide)

/-- C6: with has_versions true, a clean versions_csv and a passing
solution-subset check, the group strings (version_randomization_groups
split on comma, trimmed, empties dropped) are examined in declaration
order: if no group has an undeclared token validation succeeds, and at
the first group that has one validation fails reporting exactly the
missing tokens of that group, never reaching later groups. -/
theorem C6_randomization_groups_first_violation (csv vws s : String)
    (hinv : invalid_versions csv = [])
    (hvws : vws = "" ∨ missingFrom (parseVersions csv) (splitCommaDropEmpty vws) = []) :
    ((splitCommaDropEmpty s).find?
        (fun g => !(missingFrom (parseVersions csv) (splitSemiDropEmpty g)).isEmpty) = none →
      validate true csv vws (some s) = ValidationResult.success) ∧
    (∀ g, (splitCommaDropEmpty s).find?
        (fun g2 => !(missingFrom (parseVersions csv) (splitSemiDropEmpty g2)).isEmpty) = some g →
      validate true csv vws (some s) =
        ValidationResult.failure
          (vrgLine1 (missingFrom (parseVersions csv) (splitSemiDropEmpty g))) vrgLine2) := by
  have hred : validate true csv vws (some s) = checkVrg (parseVersions csv) (some s) := by
    rw [validate_of_invalid_nil hinv]
    simp only [checkVws]
    rcases hvws with rfl | hm
    · simp
    · by_cases hb : (vws == "")
      · rw [if_pos hb]
      · rw [if_neg hb, hm]
        simp
  rw [hred]
  by_cases hs : (s == "")
  · have hseq : s = "" := by simpa using hs
    subst hseq
    constructor
    · intro _
      rfl
    · intro g hg
      rw [(by decide : splitCommaDropEmpty "" = [])] at hg
      cases hg
  · simp only [checkVrg, hs, Bool.false_eq_true, if_false]
    exact ⟨checkGroups_of_find_none _ _,
      fun g hg => checkGroups_of_find_some _ _ g hg⟩

/-- Witness for C6: groups A;B and C over versions A,B,C succeed; groups
A;D and C fail naming D. -/
theorem C6_witness :
    invalid_versions "A,B,C" = [] ∧
    validate true "A,B,C" "" (some "A;B,C") = ValidationResult.success ∧
    validate true "A,B,C" "" (some "A;D,C") =
      ValidationResult.failure (vrgLine1 ["D"]) vrgLine2 := by
  refine ⟨by decide, ?_, ?_⟩
  · exact (C6_randomization_groups_first_violation "A,B,C" "" "A;B,C"
      (by decide) (Or.inl rfl)).1 (by decide)
  · have h := (C6_randomization_groups_first_violation "A,B,C" "" "A;D,C"
      (by decide) (Or.inl rfl)).2 "A;D" (by decide)
    exact h.trans (by decide)

/-- C7: with has_versions true and an empty versions_csv, splitting the
empty string on comma yields the single empty token, which is an invalid
version code, so validation always fails with the invalid-code
diagnostic whatever the other two fields hold; a whitespace-only
versions_csv strips to the same empty token and fails through the same
path. -/
theorem C7_empty_versions_csv_always_invalid (vws : String) (vrgOpt : Option String) :
    parseVersions "" = [""] ∧
    validate true "" vws vrgOpt =
      ValidationResult.failure (invalidCodesLine1 [""]) invalidCodesLine2 ∧
    validate true " " vws vrgOpt =
      ValidationResult.failure (invalidCodesLine1 [""]) invalidCodesLine2 ∧
    exit_status (validate true "" vws vrgOpt) = 1 :=
  ⟨rfl, rfl, rfl, rfl⟩

/-- C8: the reported error follows a fixed priority: whenever some
versions_csv token is invalid the invalid-code diagnostic is reported no
matter what the other two fields hold, and with a clean versions_csv a
solution-subset violation is reported no matter what the
randomization-group field holds. -/
theorem C8_error_priority (csv vws : String) (vrgOpt : Option String) :
    ((invalid_versions csv).isEmpty = false →
      validate true csv vws vrgOpt =
        ValidationResult.failure (invalidCodesLine1 (invalid_versions csv))
          invalidCodesLine2) ∧
    (invalid_versions csv = [] → vws ≠ "" →
      missingFrom (parseVersions csv) (splitCommaDropEmpty vws) ≠ [] →
      validate true csv vws vrgOpt =
        ValidationResult.failure
          (vwsLine1 (missingFrom (parseVersions csv) (splitCommaDropEmpty vws)))
          vwsLine2) := by
  constructor
  · intro h
    simp [validate, h]
  · intro h1 h2 h3
    rw [validate_of_invalid_nil h1]
    have hb : (vws == "") = false := by simpa using h2
    have hm : (missingFrom (parseVersions csv) (splitCommaDropEmpty vws)).isEmpty = false := by
      simpa [List.isEmpty_eq_false] using h3
    simp only [checkVws, hb, hm, Bool.false_eq_true, if_false]

/-- Witness for C8: an input violating all three classes reports the
invalid code, and one violating the two cross-reference classes reports
the solution-subset error. -/
theorem C8_witness :
    (invalid_versions "A!").isEmpty = false ∧
    validate true "A!" "C" (some "D") =
      ValidationResult.failure (invalidCodesLine1 ["A!"]) invalidCodesLine2 ∧
    invalid_versions "A" = [] ∧
    validate true "A" "C" (some "D") =
      ValidationResult.failure (vwsLine1 ["C"]) vwsLine2 := by
  refine ⟨by decide, ?_, by decide, ?_⟩
  · exact ((C8_error_priority "A!" "C" (some "D")).1 (by decide)).trans (by decide)
  · exact ((C8_error_priority "A" "C" (some "D")).2 (by decide) (by decide)
      (by decide)).trans (by decide)

/-- C9: an absent version_randomization_groups key (the rendered hook
sets the variable to None) and an empty string behave identically: both
skip the group check, so the outcome depends only on the other three
inputs. -/
theorem C9_none_equals_empty_groups (has_versions : Bool) (csv vws : String) :
    validate has_versions csv vws none = validate has_versions csv vws (some "") ∧
    ∀ versions : List String,
      checkVrg versions none = ValidationResult.success ∧
      checkVrg versions (some "") = ValidationResult.success := by
  constructor
  · have h : ∀ (versions : List String) (vws2 : String),
        checkVws versions vws2 none = checkVws versions vws2 (some "") := by
      intro versions vws2
      simp only [checkVws]
      have hvrg : checkVrg versions none = checkVrg versions (some "") := rfl
      rw [hvrg]
    cases has_versions with
    | false => rfl
    | true =>
      simp only [validate]
      rw [h]
  · intro versions
    exact ⟨rfl, rfl⟩

/-- C10: duplicate version codes are never rejected: a versions_csv
whose tokens are all valid passes the code check even with repeats and
can only fail later with a cross-reference diagnostic, and the
missing-token computation of both cross-reference checks is unchanged if
the declared list is deduplicated; the duplicated input A,A with
solution list A succeeds outright. -/
theorem C10_duplicates_harmless (csv : String)
    (h : invalid_versions csv = []) :
    (∀ toks, missingFrom (parseVersions csv) toks =
      missingFrom (parseVersions csv).dedup toks) ∧
    (∀ (vws : String) (vrgOpt : Option String) (l1 l2 : String),
      validate true csv vws vrgOpt = ValidationResult.failure l1 l2 →
      l2 ≠ invalidCodesLine2) ∧
    validate true "A,A" "A" (some "") = ValidationResult.success := by
  refine ⟨?_, ?_, by decide⟩
  · intro toks
    unfold missingFrom
    apply List.filter_congr
    intro v _
    have hc : (parseVersions csv).dedup.contains v = (parseVersions csv).contains v := by
      by_cases hv : v ∈ parseVersions csv <;>
        simp [hv, List.mem_dedup]
    rw [hc]
  · intro vws vrgOpt l1 l2 hf
    rw [validate_of_invalid_nil h] at hf
    rcases checkVws_failure_shape _ _ _ _ _ hf with ⟨_, _, h2⟩ | ⟨_, _, _, h2⟩ <;>
      rw [h2] <;> decide

/-- Witness for C10 at versions A,A: the dedup-invariance of the missing
list at the token list [A] and the successful run. -/
theorem C10_witness :
    invalid_versions "A,A" = [] ∧
    missingFrom (parseVersions "A,A") ["A"] =
      missingFrom (parseVersions "A,A").dedup ["A"] ∧
    validate true "A,A" "A" (some "") = ValidationResult.success := by
  refine ⟨by decide, ?_, ?_⟩
  · exact (C10_duplicates_harmless "A,A" (by decide)).1 ["A"]
  · exact (C10_duplicates_harmless "A,A" (by decide)).2.2

end CourseDocs
